import Mathlib

/-!
Verification development for the Citadel-Protocol repository.

Shallow embedding of the parts of the code the claims are about:
* `Method3` — the single-socket UDP hole-punch engine
  (src/hyxe_nat/src/udp_traversal/linear/method3.rs);
* `PostConnect` — the server-side PostConnect response callback that forges
  virtual connections
  (src/citadel_proto/src/proto/packet_processor/peer/server/post_connect.rs);
* `KernelExec` — the kernel executor's inner dispatch loop
  (src/hyxe_net/src/kernel/kernel_executor.rs);
* `DualStack` — the dual-stack coordinator's winner/loser election logic
  (src/hyxe_wire/src/udp_traversal/multi/mod.rs).

Asynchronous code is embedded by sequentializing each task into a pure
function that consumes its inputs (incoming datagrams, consumer outcomes,
mutex slot values) as explicit arguments and produces an action trace plus
a result, mirroring the Rust control flow branch by branch.
-/

namespace Method3

/-- Socket addresses, abstracted to atoms with decidable equality: the
hole-punch code only stores and compares them. -/
structure SocketAddr where
  host : Nat
  port : Nat
  deriving DecidableEq

/-- The `NatPacket` enum of method3.rs: `Syn(u32)` carries the sender's
current TTL attempt, `SynAck(SocketAddr)` carries the sender's local bind
address. -/
inductive NatPacket
  | Syn (ttl : Nat)
  | SynAck (bindAddr : SocketAddr)
  deriving DecidableEq

/-- `HolePunchedSocketAddr::new(initial, natAddr, remote)` as used at
method3.rs:133: the initial endpoint, the observed NAT address of the peer,
and the peer-reported bind address. -/
structure HolePunchedSocketAddr where
  initial : SocketAddr
  natAddr : SocketAddr
  remote : SocketAddr
  deriving DecidableEq

/-- The variants of `FirewallError` the hole-punch code constructs or
matches on (`HolePunch(String)` and `Skip`). -/
inductive FirewallError
  | HolePunch (reason : String)
  | Skip
  deriving DecidableEq

/-- Result type standing for Rust's `Result`, with decidable equality. -/
inductive RResult (α : Type)
  | ok (v : α)
  | err (e : FirewallError)
  deriving DecidableEq

/-- Datagram payloads, symbolically: `encSer p` is
`encryptor.generate_packet(&bincode2::serialize(&p))` — the
authenticated-encrypted serialization of `p` (the encryptor is an external
collaborator, modelled as an injective constructor). -/
inductive Payload
  | encSer (p : NatPacket)
  deriving DecidableEq

/-- How an incoming datagram behaves under `decrypt_packet` and
`bincode2::deserialize`: it decrypts and deserializes to a `NatPacket`,
or decryption fails, or decryption succeeds but deserialization fails. -/
inductive WireMsg
  | valid (p : NatPacket)
  | badDecrypt
  | badDeserialize
  deriving DecidableEq

/-- Observable actions of the receive loop. -/
inductive NetAction
  | sendTo (payload : Payload) (dst : SocketAddr)
  | logWarn
  deriving DecidableEq

/-- Output of one iteration of the `recv_until` loop body: the updated
recorded candidate, the emitted actions, `some` final result when the loop
returns, and whether the atomic done flag was stored `true`. -/
structure RecvStepOut where
  candidate : Option SocketAddr
  acts : List NetAction
  result : Option (RResult HolePunchedSocketAddr)
  done : Bool
  deriving DecidableEq

/-- One iteration of the `recv_until` loop body (method3.rs:102-145) on a
datagram from source address `src`, with `cand` the current
`recv_from_required`, `endpoint` the `endpoint` argument and `localBind`
the socket's local address. -/
def recvStep (endpoint localBind : SocketAddr) (cand : Option SocketAddr)
    (msg : WireMsg) (src : SocketAddr) : RecvStepOut :=
  match msg with
  | .badDecrypt => ⟨cand, [.logWarn], none, false⟩
  | .badDeserialize =>
      ⟨cand, [], some (.err (.HolePunch "bincode2 deserialize failure")), false⟩
  | .valid (.Syn _ttl) =>
      ⟨some src, List.replicate 3 (.sendTo (.encSer (.SynAck localBind)) src),
       none, false⟩
  | .valid (.SynAck bindAddr) =>
      match cand with
      | some required =>
          if required = src then
            ⟨cand, [], some (.ok ⟨endpoint, src, bindAddr⟩), true⟩
          else
            ⟨cand, [.logWarn], none, false⟩
      | none => ⟨cand, [.logWarn], none, false⟩

/-- Final output of `recv_until`. -/
structure RecvOut where
  acts : List NetAction
  result : RResult HolePunchedSocketAddr
  done : Bool
  deriving DecidableEq

/-- `recv_until` (method3.rs:97-148) over an explicit list of incoming
datagrams; an exhausted list stands for `recv_from` returning `Err`, which
exits the `while let` with `HolePunch("Socket recv error")`. -/
def recvUntilAux (endpoint localBind : SocketAddr) (cand : Option SocketAddr) :
    List (WireMsg × SocketAddr) → RecvOut
  | [] => ⟨[], .err (.HolePunch "Socket recv error"), false⟩
  | (msg, src) :: rest =>
      let step := recvStep endpoint localBind cand msg src
      match step.result with
      | some r => ⟨step.acts, r, step.done⟩
      | none =>
          let tail := recvUntilAux endpoint localBind step.candidate rest
          ⟨step.acts ++ tail.acts, tail.result, tail.done⟩

/-- `recv_until` starting with no recorded candidate
(`recv_from_required = None`, method3.rs:101). -/
def recvUntil (endpoint localBind : SocketAddr)
    (incoming : List (WireMsg × SocketAddr)) : RecvOut :=
  recvUntilAux endpoint localBind none incoming

/-- Observable actions of the sender task. -/
inductive SendAction
  | sleepMs (ms : Nat)
  | setTtl (ttl : Nat)
  | tick (ms : Nat)
  | sendTo (payload : Payload) (dst : SocketAddr)
  deriving DecidableEq

/-- One round of a barrage: one tick of the interval timer followed by one
encrypted serialized `Syn(ttl)` datagram to every endpoint in order
(method3.rs:83-87). -/
def synRound (ttl deltaMillis : Nat) (endpoints : List SocketAddr) :
    List SendAction :=
  SendAction.tick deltaMillis ::
    endpoints.map (fun ep => SendAction.sendTo (.encSer (.Syn ttl)) ep)

/-- `send_syn_barrage` (method3.rs:75-94): set the socket TTL, then five
rounds. -/
def sendSynBarrage (ttl deltaMillis : Nat) (endpoints : List SocketAddr) :
    List SendAction :=
  SendAction.setTtl ttl :: (List.replicate 5 (synRound ttl deltaMillis endpoints)).flatten

/-- The sender task of `execute_either` (method3.rs:55-61): sleep 10 ms,
then a TTL=2 barrage and a TTL=120 barrage, both with a 20 ms tick
interval. -/
def senderTaskTrace (endpoints : List SocketAddr) : List SendAction :=
  SendAction.sleepMs 10 ::
    (sendSynBarrage 2 20 endpoints ++ sendSynBarrage 120 20 endpoints)

/-- Spec-side rendition of one barrage, written from the claim's words:
set the socket TTL to the barrage value, then five rounds, each round
preceded by one tick of the interval timer and sending one encrypted
serialized `Syn(ttl)` datagram to every candidate endpoint in order. -/
def specBarrage (ttl : Nat) (endpoints : List SocketAddr) : List SendAction :=
  SendAction.setTtl ttl ::
    ((List.range 5).map (fun _ =>
      SendAction.tick 20 ::
        endpoints.map (fun ep => SendAction.sendTo (.encSer (.Syn ttl)) ep))).flatten

/-- Spec-side rendition of the whole sender task: sleep 10 ms, then exactly
two barrages, the first with TTL=2 and the second with TTL=120. -/
def specSenderTrace (endpoints : List SocketAddr) : List SendAction :=
  SendAction.sleepMs 10 :: (specBarrage 2 endpoints ++ specBarrage 120 endpoints)

/-- The display text of tokio's timeout `Elapsed` error, which
`err.to_string()` produces at the `map_err` site of method3.rs:48. -/
def elapsedMessage : String := "deadline has elapsed"

/-- `execute_either` (method3.rs:38-73), sequentialized.  `ttl0` is the
socket TTL at entry (`socket.ttl()` is modelled as succeeding);
`timedOut` tells whether the 2000 ms `tokio::time::timeout` elapsed before
`recv_until` finished.  Returns `none` when the unconditional
`&endpoints[0]` index at method3.rs:48 panics (empty endpoint list);
otherwise `some (result, finalTtl)`.  The sender leaves the TTL at 120
(last barrage); the TTL is set back to `ttl0` only on the success path
(method3.rs:64 returns early on error, before the restore at
method3.rs:66-68). -/
def executeEither (ttl0 : Nat) (endpoints : List SocketAddr)
    (localBind : SocketAddr) (incoming : List (WireMsg × SocketAddr))
    (timedOut : Bool) : Option (RResult HolePunchedSocketAddr × Nat) :=
  match endpoints with
  | [] => none
  | ep0 :: _ =>
      let ttlAfterSender := 120
      let receiverResult : RResult HolePunchedSocketAddr :=
        if timedOut then
          .err (.HolePunch elapsedMessage)
        else
          match (recvUntil ep0 localBind incoming).result with
          | .ok res => .ok res
          | .err _ => .err (.HolePunch "No UDP penetration detected")
      match receiverResult with
      | .err e => some (.err e, ttlAfterSender)
      | .ok addr => some (.ok addr, ttl0)

end Method3

namespace PostConnect

/-- An outbound TCP sender handle (`to_primary_stream`); a cheap-cloneable
handle, abstracted to an atom. -/
structure TcpSender where
  id : Nat
  deriving DecidableEq

/-- An outbound UDP sender handle (`udp_primary_outbound_tx`). -/
structure UdpSender where
  id : Nat
  deriving DecidableEq

/-- The `VirtualConnectionType` variant constructed by the PostConnect
callback: `LocalGroupPeer(implicated_cid, target_cid)`
(post_connect.rs:46-47). -/
inductive VirtualConnectionType
  | LocalGroupPeer (implicated_cid : Nat) (target_cid : Nat)
  deriving DecidableEq

/-- A virtual-connection table entry: connection type, optional UDP sender,
TCP sender. -/
structure VirtualConnection where
  conn_type : VirtualConnectionType
  udp_sender : Option UdpSender
  tcp_sender : TcpSender
  deriving DecidableEq

/-- The parts of a session's state container the callback touches: the
session's own UDP outbound sender and the virtual-connection table. -/
structure StateContainer where
  udp_primary_outbound_tx : Option UdpSender
  vconns : List (Nat × VirtualConnection)
  deriving DecidableEq

/-- The parts of an `HdpSession` the callback touches. -/
structure HdpSession where
  to_primary_stream : Option TcpSender
  state_container : StateContainer
  deriving DecidableEq

/-- Modelled from the spec: `StateContainer::insert_new_virtual_connection_as_server`
is not among the provided sources (only its caller in post_connect.rs is).
Per the spec's data model — a virtual connection has attributes
`(owner_cid, peer_cid, tcp_sender, udp_sender?)` and the forge installs
routing handles into the owning state container — it records, under the
given peer-CID key, an entry holding the given connection type and the
provided optional UDP and mandatory TCP senders. -/
def insert_new_virtual_connection_as_server (sc : StateContainer)
    (key_cid : Nat) (conn_type : VirtualConnectionType)
    (udp : Option UdpSender) (tcp : TcpSender) : StateContainer :=
  { sc with vconns := (key_cid, ⟨conn_type, udp, tcp⟩) :: sc.vconns }

/-- Look up the virtual-connection entry stored under a CID key. -/
def lookup_vconn (sc : StateContainer) (cid : Nat) : Option VirtualConnection :=
  (sc.vconns.find? (fun e => e.1 == cid)).map (fun e => e.2)

/-- The PostConnect response callback body (post_connect.rs:32-54): when
both sessions' `to_primary_stream` senders are present, clone both UDP
senders and insert the two mirrored entries; otherwise leave both sessions
unchanged (the `if let` chains simply fall through). -/
def forge_callback (this_sess peer_sess : HdpSession)
    (implicated_cid target_cid : Nat) : HdpSession × HdpSession :=
  match this_sess.to_primary_stream with
  | none => (this_sess, peer_sess)
  | some this_tcp_sender =>
    match peer_sess.to_primary_stream with
    | none => (this_sess, peer_sess)
    | some peer_tcp_sender =>
        let this_udp_sender := this_sess.state_container.udp_primary_outbound_tx
        let peer_udp_sender := peer_sess.state_container.udp_primary_outbound_tx
        let virtual_conn_relative_to_this :=
          VirtualConnectionType.LocalGroupPeer implicated_cid target_cid
        let virtual_conn_relative_to_peer :=
          VirtualConnectionType.LocalGroupPeer target_cid implicated_cid
        let this' := { this_sess with state_container :=
          (insert_new_virtual_connection_as_server this_sess.state_container
            target_cid virtual_conn_relative_to_this peer_udp_sender peer_tcp_sender) }
        let peer' := { peer_sess with state_container :=
          (insert_new_virtual_connection_as_server peer_sess.state_container
            implicated_cid virtual_conn_relative_to_peer this_udp_sender this_tcp_sender) }
        (this', peer')

/-- Which session a lock/insert action refers to. -/
inductive SessRef
  | thisSess
  | peerSess
  deriving DecidableEq

/-- Observable lock and table actions of the callback. -/
inductive ForgeAction
  | acquireLock (s : SessRef)
  | insertEntry (s : SessRef) (key : Nat)
  | releaseLock (s : SessRef)
  deriving DecidableEq

/-- The callback's action order (post_connect.rs:37-53): both
`inner_mut_state!` locks are acquired (this_sess first, then peer_sess),
then both inserts run, then both guards drop at end of scope (in reverse
declaration order).  When either TCP sender is absent nothing happens. -/
def forge_trace (this_sess peer_sess : HdpSession)
    (implicated_cid target_cid : Nat) : List ForgeAction :=
  match this_sess.to_primary_stream, peer_sess.to_primary_stream with
  | some _, some _ =>
      [.acquireLock .thisSess, .acquireLock .peerSess,
       .insertEntry .thisSess target_cid, .insertEntry .peerSess implicated_cid,
       .releaseLock .peerSess, .releaseLock .thisSess]
  | _, _ => []

end PostConnect

namespace KernelExec

/-- The `NetworkError` variants the kernel executor constructs or matches
on. -/
inductive NetworkError
  | ProperShutdown
  | Generic (reason : String)
  deriving DecidableEq

/-- Outcome of a fallible kernel/remote operation. -/
inductive KResult
  | ok
  | err (e : NetworkError)
  deriving DecidableEq

/-- Engine results delivered to the kernel loop: the `Shutdown` sentinel or
an ordinary message (payload abstracted to an atom). -/
inductive HdpServerResult
  | Shutdown
  | Message (payload : Nat)
  deriving DecidableEq

/-- Observable actions of `multithreaded_kernel_inner_loop`. -/
inductive KAction
  | kernelOnStart
  | logShutdownSignal
  | logKernelError (e : NetworkError)
  | remoteShutdown
  | awaitShutdownAlert300
  | kernelOnStop
  deriving DecidableEq

/-- The per-message closure of `try_for_each_concurrent`
(kernel_executor.rs:94-116): `Shutdown` ends with `ProperShutdown`; a
non-running kernel ends with `ProperShutdown`; a consumer error is logged,
`remote.shutdown()` is requested (its own failure, if any, takes over via
`?`), and the consumer's error is the closure's result. -/
def processMessage (canRun : Bool) (consumer : Nat → KResult)
    (shutdownResult : KResult) (msg : HdpServerResult) :
    List KAction × KResult :=
  match msg with
  | .Shutdown => ([.logShutdownSignal], .err .ProperShutdown)
  | .Message m =>
      if canRun then
        match consumer m with
        | .err e =>
            match shutdownResult with
            | .err e2 => ([.logKernelError e, .remoteShutdown], .err e2)
            | .ok => ([.logKernelError e, .remoteShutdown], .err e)
        | .ok => ([], .ok)
      else ([], .err .ProperShutdown)

/-- The dispatch over the result stream, sequentialized: dispatch each
message in turn, stopping at the first closure error (as
`try_for_each_concurrent` stops taking new items once a closure fails). -/
def dispatchLoop (canRun : Bool) (consumer : Nat → KResult)
    (shutdownResult : KResult) : List HdpServerResult → List KAction × KResult
  | [] => ([], .ok)
  | msg :: rest =>
      let step := processMessage canRun consumer shutdownResult msg
      match step.2 with
      | .err e => (step.1, .err e)
      | .ok =>
          let tail := dispatchLoop canRun consumer shutdownResult rest
          (step.1 ++ tail.1, tail.2)

/-- `multithreaded_kernel_inner_loop` (kernel_executor.rs:80-123):
`on_start` failure is fatal; otherwise the dispatch loop runs and its
result is discarded (`let _ = reader.try_for_each_concurrent(...)` under
`allow(unused_must_use)`), then the executor waits up to 300 ms for the
shutdown alert and returns `kernel.on_stop()`'s result. -/
def multithreaded_kernel_inner_loop (onStartResult : KResult) (canRun : Bool)
    (consumer : Nat → KResult) (shutdownResult : KResult)
    (onStopResult : KResult) (msgs : List HdpServerResult) :
    List KAction × KResult :=
  match onStartResult with
  | .err e => ([.kernelOnStart], .err e)
  | .ok =>
      let looped := dispatchLoop canRun consumer shutdownResult msgs
      (KAction.kernelOnStart :: looped.1 ++ [.awaitShutdownAlert300, .kernelOnStop],
       onStopResult)

end KernelExec

namespace DualStack

/-- A per-socket hole-punch identifier. -/
structure HolePunchID where
  id : Nat
  deriving DecidableEq

/-- A completed hole-punched socket as the coordinator sees it:
`socket.addr.unique_id` is the peer-side id of the winning candidate. -/
structure HolePunchedUdpSocket where
  peerUniqueId : HolePunchID
  sockId : Nat
  deriving DecidableEq

/-- The `DualStackCandidate` control messages (multi/mod.rs:33-36). -/
inductive DualStackCandidate
  | MutexSet (a b : HolePunchID)
  | WinnerCanEnd
  deriving DecidableEq

/-- Observable actions of the coordinator's completion paths. -/
inductive DriveAction
  | setMutexValue
  | cleanse (s : HolePunchedUdpSocket)
  | submitFinalCandidate (s : HolePunchedUdpSocket)
  | sendControl (c : DualStackCandidate)
  | awaitWinnerCanEnd
  | emitSignalDone
  | postRebuildSend (s : HolePunchedUdpSocket)
  | recordLocalFailure (i : HolePunchID)
  deriving DecidableEq

/-- What a step of the futures-resolver loop does next. -/
inductive ResolveOutcome
  | keepPolling
  | finished
  | panicked
  deriving DecidableEq

/-- The shared state the two completion paths touch: `loser_value_set`,
`local_failures` (keys only), the `done_tx` one-shot slot, the distributed
mutex slot value, and `finished_count`. -/
structure ResolverState where
  loserValueSet : Option (HolePunchID × HolePunchID)
  localFailures : List HolePunchID
  doneSlot : Option Unit
  mutexValue : Option Unit
  finishedCount : Nat
  deriving DecidableEq

/-- `signal_done` (multi/mod.rs:163-166): take the one-shot sender out of
the slot; emit on it when it was still there, otherwise error (no
emission).  Returns (emitted, new slot). -/
def signalDone (slot : Option Unit) : Bool × Option Unit :=
  match slot with
  | some _ => (true, none)
  | none => (false, none)

/-- Number of emissions `n` successive `signal_done` calls perform,
starting from a given slot. -/
def signalDoneCount (slot : Option Unit) : Nat → Nat
  | 0 => 0
  | n + 1 =>
      let step := signalDone slot
      (if step.1 then 1 else 0) + signalDoneCount step.2 n

/-- Output of one step of a completion path. -/
structure StepOut where
  state : ResolverState
  acts : List DriveAction
  outcome : ResolveOutcome
  deriving DecidableEq

/-- One iteration of the `futures_resolver` loop body (multi/mod.rs:183-239)
on one finished engine result.  `localId` is `hole_puncher.get_unique_id()`;
`enqueuedTaken` tells whether the just-enqueued socket was taken by the
rebuild path while this task awaited the distributed mutex
(multi/mod.rs:211, else-branch at 226-228).  Acquiring the mutex reads the
replicated slot value from the state. -/
def futuresResolverStep (st0 : ResolverState)
    (res : Method3.RResult HolePunchedUdpSocket) (localId : HolePunchID)
    (enqueuedTaken : Bool) : StepOut :=
  let st := { st0 with finishedCount := st0.finishedCount + 1 }
  match res with
  | .ok socket =>
      let peer_unique_id := socket.peerUniqueId
      match st.loserValueSet with
      | some (preLocal, preRemote) =>
          if localId = preLocal ∧ peer_unique_id = preRemote then
            ⟨st, [.postRebuildSend socket], .keepPolling⟩
          else
            ⟨st, [], .keepPolling⟩
      | none =>
          if enqueuedTaken then
            ⟨st, [], .keepPolling⟩
          else
            match st.mutexValue with
            | none =>
                let sd := signalDone st.doneSlot
                ⟨{ st with mutexValue := some (), doneSlot := sd.2 },
                 [.setMutexValue, .cleanse socket, .submitFinalCandidate socket,
                  .sendControl (.MutexSet peer_unique_id localId),
                  .awaitWinnerCanEnd] ++ (if sd.1 then [.emitSignalDone] else []),
                 .finished⟩
            | some _ => ⟨st, [], .panicked⟩
  | .err .Skip => ⟨st, [], .keepPolling⟩
  | .err _ =>
      ⟨{ st with localFailures := localId :: st.localFailures },
       [.recordLocalFailure localId], .keepPolling⟩

/-- The reader's `MutexSet` branch (multi/mod.rs:252-261), the loser
completion path: record the loser-value pair, rebuild (the rebuilt socket
is an argument), cleanse it, submit it as final, reply `WinnerCanEnd`, and
call `signal_done`. -/
def readerMutexSetStep (st0 : ResolverState) (localSel remoteSel : HolePunchID)
    (rebuilt : HolePunchedUdpSocket) : StepOut :=
  let st := { st0 with loserValueSet := some (localSel, remoteSel) }
  let sd := signalDone st.doneSlot
  ⟨{ st with doneSlot := sd.2 },
   [.cleanse rebuilt, .submitFinalCandidate rebuilt,
    .sendControl .WinnerCanEnd] ++ (if sd.1 then [.emitSignalDone] else []),
   .finished⟩

/-- Count the signal-done emissions in an action trace. -/
def emitCount (acts : List DriveAction) : Nat :=
  acts.count .emitSignalDone

end DualStack

namespace Method3

theorem count_flatten_replicate (n : Nat) (l : List SendAction) (a : SendAction) :
    ((List.replicate n l).flatten).count a = n * l.count a := by
  induction n with
  | zero => simp
  | succ n ih =>
      rw [List.replicate_succ]
      simp [List.count_append, ih, Nat.succ_mul, Nat.add_comm]

theorem count_setTtl_map_sendTo (t : Nat) (p : Payload) (l : List SocketAddr) :
    (l.map (fun ep => SendAction.sendTo p ep)).count (SendAction.setTtl t) = 0 := by
  simp [List.count_eq_zero, List.mem_map]

theorem count_tick_map_sendTo (m : Nat) (p : Payload) (l : List SocketAddr) :
    (l.map (fun ep => SendAction.sendTo p ep)).count (SendAction.tick m) = 0 := by
  simp [List.count_eq_zero, List.mem_map]

theorem recvStep_ok_initial (endpoint localBind : SocketAddr)
    (cand : Option SocketAddr) (msg : WireMsg) (src : SocketAddr)
    (a : HolePunchedSocketAddr)
    (h : (recvStep endpoint localBind cand msg src).result = some (.ok a)) :
    a.initial = endpoint := by
  cases msg with
  | badDecrypt => simp [recvStep] at h
  | badDeserialize => simp [recvStep] at h
  | valid p =>
      cases p with
      | Syn ttl => simp [recvStep] at h
      | SynAck bindAddr =>
          cases cand with
          | none => simp [recvStep] at h
          | some required =>
              by_cases hreq : required = src
              · simp [recvStep, hreq] at h
                simp [← h]
              · simp [recvStep, hreq] at h

theorem recvUntilAux_ok_initial (endpoint localBind : SocketAddr)
    (incoming : List (WireMsg × SocketAddr)) (cand : Option SocketAddr)
    (a : HolePunchedSocketAddr)
    (h : (recvUntilAux endpoint localBind cand incoming).result = .ok a) :
    a.initial = endpoint := by
  induction incoming generalizing cand with
  | nil => simp [recvUntilAux] at h
  | cons hd tl ih =>
      rw [recvUntilAux] at h
      rcases hres : (recvStep endpoint localBind cand hd.1 hd.2).result with _ | r
      · simp [hres] at h
        exact ih _ h
      · simp [hres] at h
        cases r with
        | ok v =>
            cases h
            exact recvStep_ok_initial endpoint localBind cand hd.1 hd.2 _
              (by rw [hres])
        | err e => cases h

/-- Claim C3 counterexample: the claim says the socket TTL is restored on
every exit path of `execute_either`, but on a failure exit the early
`res0?` return (method3.rs:64) skips the restore: starting from TTL 64
with no incoming datagrams, the run fails and the TTL at return is 120
(the second barrage's value), not 64. -/
theorem executeEither_failure_leaves_ttl_120 :
    executeEither 64 [⟨9, 9⟩] ⟨0, 1⟩ [] false
      = some (.err (.HolePunch "No UDP penetration detected"), 120)
  ∧ (120 : Nat) ≠ 64 := by
  exact ⟨rfl, by decide⟩

/-- Claim C3, amended: the socket TTL at return equals its value at entry
on the success exit path only; on every failure exit the TTL is left at
120, the value set by the last barrage. -/
theorem executeEither_ttl_restored_on_success_only (ttl0 : Nat)
    (ep localBind : SocketAddr) (rest : List SocketAddr)
    (incoming : List (WireMsg × SocketAddr)) (timedOut : Bool) :
    (∀ a t, executeEither ttl0 (ep :: rest) localBind incoming timedOut
        = some (.ok a, t) → t = ttl0)
  ∧ (∀ e t, executeEither ttl0 (ep :: rest) localBind incoming timedOut
        = some (.err e, t) → t = 120) := by
  constructor
  · intro a t h
    cases timedOut with
    | true => simp [executeEither] at h
    | false =>
        rcases hres : (recvUntil ep localBind incoming).result with v | e
        · simp [executeEither, hres] at h
          exact h.2.symm
        · simp [executeEither, hres] at h
  · intro e t h
    cases timedOut with
    | true =>
        simp [executeEither] at h
        exact h.2.symm
    | false =>
        rcases hres : (recvUntil ep localBind incoming).result with v | e'
        · simp [executeEither, hres] at h
        · simp [executeEither, hres] at h
          exact h.2.symm

/-- Witness for the amended C3 theorem: both branches are applied at
concrete runs — a successful Syn/SynAck exchange restores TTL 64, and the
empty-traffic failure run ends at TTL 120. -/
theorem executeEither_ttl_restored_on_success_only_witness :
    (64 : Nat) = 64 ∧ (120 : Nat) = 120 := by
  constructor
  · exact (executeEither_ttl_restored_on_success_only 64 ⟨9, 9⟩ ⟨0, 1⟩ []
      [(.valid (.Syn 2), ⟨1, 1⟩), (.valid (.SynAck ⟨2, 2⟩), ⟨1, 1⟩)]
      false).1 ⟨⟨9, 9⟩, ⟨1, 1⟩, ⟨2, 2⟩⟩ 64 rfl
  · exact (executeEither_ttl_restored_on_success_only 64 ⟨9, 9⟩ ⟨0, 1⟩ [] []
      false).2 (.HolePunch "No UDP penetration detected") 120 rfl

/-- Claim C5 counterexample: when the 2000 ms deadline elapses, the `?` at
method3.rs:48 propagates `HolePunch(elapsed.to_string())` — the text of
tokio's `Elapsed` error — not `HolePunch("No UDP penetration detected")`. -/
theorem executeEither_deadline_message_cex :
    executeEither 64 [⟨9, 9⟩] ⟨0, 1⟩ [] true
      = some (.err (.HolePunch elapsedMessage), 120)
  ∧ FirewallError.HolePunch elapsedMessage
      ≠ FirewallError.HolePunch "No UDP penetration detected" := by
  exact ⟨rfl, by decide⟩

/-- Claim C5, amended: if the 2000 ms deadline elapses, `execute_either`
returns `HolePunch` carrying the timeout error's own message ("deadline
has elapsed"); `HolePunch("No UDP penetration detected")` is returned
instead when the inner receive loop ends in an error before the
deadline. -/
theorem executeEither_deadline_vs_inner_error (ttl0 : Nat)
    (ep localBind : SocketAddr) (rest : List SocketAddr)
    (incoming : List (WireMsg × SocketAddr)) :
    executeEither ttl0 (ep :: rest) localBind incoming true
      = some (.err (.HolePunch elapsedMessage), 120)
  ∧ (∀ e, (recvUntil ep localBind incoming).result = .err e →
      executeEither ttl0 (ep :: rest) localBind incoming false
        = some (.err (.HolePunch "No UDP penetration detected"), 120)) := by
  constructor
  · rfl
  · intro e h
    simp [executeEither, h]

/-- Witness for the amended C5 theorem: with no incoming datagrams the
receive loop errors out and the result is the "No UDP penetration
detected" error. -/
theorem executeEither_deadline_vs_inner_error_witness :
    executeEither 64 [⟨9, 9⟩] ⟨0, 1⟩ [] false
      = some (.err (.HolePunch "No UDP penetration detected"), 120) := by
  exact (executeEither_deadline_vs_inner_error 64 ⟨9, 9⟩ ⟨0, 1⟩ [] []).2
    (.HolePunch "Socket recv error") rfl

/-- Claim C6: the sender task sleeps 10 ms, then runs exactly two barrages
(TTL=2 then TTL=120); each barrage sets the socket TTL and performs five
rounds, each round one interval tick followed by one encrypted serialized
`Syn(ttl)` datagram to every candidate endpoint in order.  Stated as
equality with a spec-side rendition of that sentence, together with
counting facts: exactly two TTL sets (one to 2, one to 120), ten ticks,
and five `Syn(ttl)` sends per barrage to each endpoint occurrence. -/
theorem senderTask_two_barrages (endpoints : List SocketAddr) :
    senderTaskTrace endpoints = specSenderTrace endpoints
  ∧ (senderTaskTrace endpoints).count (SendAction.setTtl 2) = 1
  ∧ (senderTaskTrace endpoints).count (SendAction.setTtl 120) = 1
  ∧ (senderTaskTrace endpoints).count (SendAction.tick 20) = 10
  ∧ (∀ ttl ep, (sendSynBarrage ttl 20 endpoints).count
      (SendAction.sendTo (.encSer (.Syn ttl)) ep) = 5 * endpoints.count ep) := by
  refine ⟨?_, ?_, ?_, ?_, ?_⟩
  · have hmap : (List.range 5).map (fun _ =>
        SendAction.tick 20 ::
          endpoints.map (fun ep => SendAction.sendTo (.encSer (.Syn 2)) ep))
        = List.replicate 5 (synRound 2 20 endpoints) := by
      simp [synRound, List.map_const', List.eq_replicate_iff]
    have hmap' : (List.range 5).map (fun _ =>
        SendAction.tick 20 ::
          endpoints.map (fun ep => SendAction.sendTo (.encSer (.Syn 120)) ep))
        = List.replicate 5 (synRound 120 20 endpoints) := by
      simp [synRound, List.map_const', List.eq_replicate_iff]
    simp [senderTaskTrace, specSenderTrace, sendSynBarrage, specBarrage, hmap, hmap']
  · simp [senderTaskTrace, sendSynBarrage, List.count_cons, List.count_append,
      count_flatten_replicate, synRound, count_setTtl_map_sendTo]
  · simp [senderTaskTrace, sendSynBarrage, List.count_cons, List.count_append,
      count_flatten_replicate, synRound, count_setTtl_map_sendTo]
  · simp [senderTaskTrace, sendSynBarrage, List.count_cons, List.count_append,
      count_flatten_replicate, synRound, count_tick_map_sendTo]
  · intro ttl ep
    have hinj : Function.Injective
        (fun ep => SendAction.sendTo (.encSer (.Syn ttl)) ep) := by
      intro a b h
      simpa using h
    simp [sendSynBarrage, List.count_cons, count_flatten_replicate, synRound,
      List.count_map_of_injective _ _ hinj]
    ring

/-- Claim C7: the receive loop drops datagrams whose decryption fails and
continues without error; on `Syn(ttl)` it records the datagram's source
address as the candidate and sends three `SynAck(localBind)` datagrams
back to that source; on `SynAck(bindAddr)` it declares success (returning
the hole-punched address built from the source and setting the done flag)
if and only if the source equals the recorded candidate, and otherwise
warns and keeps looping. -/
theorem recvStep_behaviour (endpoint localBind : SocketAddr)
    (cand : Option SocketAddr) (src bindAddr : SocketAddr) (ttl : Nat) :
    recvStep endpoint localBind cand .badDecrypt src
      = ⟨cand, [.logWarn], none, false⟩
  ∧ recvStep endpoint localBind cand (.valid (.Syn ttl)) src
      = ⟨some src, List.replicate 3 (.sendTo (.encSer (.SynAck localBind)) src),
         none, false⟩
  ∧ ((recvStep endpoint localBind cand (.valid (.SynAck bindAddr)) src).result.isSome
      ↔ cand = some src)
  ∧ (cand = some src →
      recvStep endpoint localBind cand (.valid (.SynAck bindAddr)) src
        = ⟨cand, [], some (.ok ⟨endpoint, src, bindAddr⟩), true⟩)
  ∧ (cand ≠ some src →
      recvStep endpoint localBind cand (.valid (.SynAck bindAddr)) src
        = ⟨cand, [.logWarn], none, false⟩) := by
  refine ⟨rfl, rfl, ?_, ?_, ?_⟩
  · cases cand with
    | none => simp [recvStep]
    | some required =>
        by_cases hreq : required = src
        · simp [recvStep, hreq]
        · simp [recvStep, hreq]
  · intro h
    cases cand with
    | none => cases h
    | some required =>
        have : required = src := by injection h
        simp [recvStep, this]
  · intro h
    cases cand with
    | none => simp [recvStep]
    | some required =>
        have hreq : ¬ required = src := fun hc => h (by rw [hc])
        simp [recvStep, hreq]

/-- Witness for claim C7: both `SynAck` branches applied at concrete
inputs — a matching source succeeds with the done flag set, a
non-matching source warns and continues. -/
theorem recvStep_behaviour_witness :
    recvStep ⟨0, 0⟩ ⟨0, 1⟩ (some ⟨1, 1⟩) (.valid (.SynAck ⟨2, 2⟩)) ⟨1, 1⟩
      = ⟨some ⟨1, 1⟩, [], some (.ok ⟨⟨0, 0⟩, ⟨1, 1⟩, ⟨2, 2⟩⟩), true⟩
  ∧ recvStep ⟨0, 0⟩ ⟨0, 1⟩ (some ⟨1, 1⟩) (.valid (.SynAck ⟨2, 2⟩)) ⟨3, 3⟩
      = ⟨some ⟨1, 1⟩, [.logWarn], none, false⟩ := by
  constructor
  · exact (recvStep_behaviour ⟨0, 0⟩ ⟨0, 1⟩ (some ⟨1, 1⟩) ⟨1, 1⟩ ⟨2, 2⟩ 0).2.2.2.1 rfl
  · exact (recvStep_behaviour ⟨0, 0⟩ ⟨0, 1⟩ (some ⟨1, 1⟩) ⟨3, 3⟩ ⟨2, 2⟩ 0).2.2.2.2
      (by decide)

/-- Claim C9: `execute_either` unconditionally indexes `endpoints[0]`, so
an empty endpoint list makes every call panic (modelled as `none`), and on
success the returned `HolePunchedSocketAddr`'s initial endpoint is always
the first candidate, regardless of which peer address completed the
exchange. -/
theorem executeEither_first_endpoint (ttl0 : Nat) (ep localBind : SocketAddr)
    (rest : List SocketAddr) (incoming : List (WireMsg × SocketAddr))
    (timedOut : Bool) :
    (∀ inc tmo, executeEither ttl0 [] localBind inc tmo = none)
  ∧ (∀ a t, executeEither ttl0 (ep :: rest) localBind incoming timedOut
      = some (.ok a, t) → a.initial = ep) := by
  constructor
  · intro inc tmo
    rfl
  · intro a t h
    cases timedOut with
    | true => simp [executeEither] at h
    | false =>
        rcases hres : (recvUntil ep localBind incoming).result with v | e
        · simp [executeEither, hres] at h
          rw [← h.1]
          exact recvUntilAux_ok_initial ep localBind incoming none v hres
        · simp [executeEither, hres] at h

/-- Witness for claim C9: a successful exchange whose Syn/SynAck partner
is a different address from the first candidate still reports the first
candidate as the initial endpoint. -/
theorem executeEither_first_endpoint_witness :
    Method3.HolePunchedSocketAddr.initial ⟨⟨9, 9⟩, ⟨1, 1⟩, ⟨2, 2⟩⟩ = ⟨9, 9⟩ := by
  exact (executeEither_first_endpoint 64 ⟨9, 9⟩ ⟨0, 1⟩ []
    [(.valid (.Syn 2), ⟨1, 1⟩), (.valid (.SynAck ⟨2, 2⟩), ⟨1, 1⟩)] false).2
    ⟨⟨9, 9⟩, ⟨1, 1⟩, ⟨2, 2⟩⟩ 64 rfl

/-- Claim C10: every received `Syn` overwrites the previously recorded
candidate, so with several `Syn`s from different sources before a
`SynAck`, success is judged against the most recent `Syn`'s source: in a
concrete run with `Syn`s from two sources, a `SynAck` from the first
source is rejected (the run falls through to the socket-recv error) while
a `SynAck` from the second succeeds against the second source. -/
theorem recvStep_syn_overwrites_candidate :
    (∀ (endpoint localBind src : SocketAddr) (prior : Option SocketAddr)
       (ttl : Nat),
      (recvStep endpoint localBind prior (.valid (.Syn ttl)) src).candidate
        = some src)
  ∧ (recvUntil ⟨0, 0⟩ ⟨0, 1⟩
      [(.valid (.Syn 2), ⟨1, 1⟩), (.valid (.Syn 2), ⟨2, 2⟩),
       (.valid (.SynAck ⟨3, 3⟩), ⟨1, 1⟩)]).result
      = .err (.HolePunch "Socket recv error")
  ∧ (recvUntil ⟨0, 0⟩ ⟨0, 1⟩
      [(.valid (.Syn 2), ⟨1, 1⟩), (.valid (.Syn 2), ⟨2, 2⟩),
       (.valid (.SynAck ⟨3, 3⟩), ⟨2, 2⟩)]).result
      = .ok ⟨⟨0, 0⟩, ⟨2, 2⟩, ⟨3, 3⟩⟩ := by
  refine ⟨?_, by decide, by decide⟩
  intro endpoint localBind src prior ttl
  rfl

end Method3


namespace PostConnect

/-- Claim C1: when forging occurs in the PostConnect response callback
(both sessions' TCP senders present), the two state containers hold
mirrored virtual-connection entries — this session's table maps the target
CID to a `LocalGroupPeer(implicated, target)` entry wired to the peer's
TCP sender and the peer's UDP sender (when present), and the peer's table
maps the implicated CID to the mirrored `LocalGroupPeer(target,
implicated)` entry wired to this session's senders — and the callback's
action order acquires both state-container locks before either insert and
releases them only after both inserts. -/
theorem post_connect_mirrored_entries (this_sess peer_sess : HdpSession)
    (implicated_cid target_cid : Nat) (this_tcp peer_tcp : TcpSender)
    (h1 : this_sess.to_primary_stream = some this_tcp)
    (h2 : peer_sess.to_primary_stream = some peer_tcp) :
    lookup_vconn (forge_callback this_sess peer_sess implicated_cid
        target_cid).1.state_container target_cid
      = some ⟨.LocalGroupPeer implicated_cid target_cid,
              peer_sess.state_container.udp_primary_outbound_tx, peer_tcp⟩
  ∧ lookup_vconn (forge_callback this_sess peer_sess implicated_cid
        target_cid).2.state_container implicated_cid
      = some ⟨.LocalGroupPeer target_cid implicated_cid,
              this_sess.state_container.udp_primary_outbound_tx, this_tcp⟩
  ∧ forge_trace this_sess peer_sess implicated_cid target_cid
      = [.acquireLock .thisSess, .acquireLock .peerSess,
         .insertEntry .thisSess target_cid, .insertEntry .peerSess implicated_cid,
         .releaseLock .peerSess, .releaseLock .thisSess] := by
  refine ⟨?_, ?_, ?_⟩
  · simp [forge_callback, h1, h2, lookup_vconn,
      insert_new_virtual_connection_as_server]
  · simp [forge_callback, h1, h2, lookup_vconn,
      insert_new_virtual_connection_as_server]
  · simp [forge_trace, h1, h2]

/-- Witness for claim C1 at concrete sessions: session A has TCP sender 1
and a UDP sender, session B has TCP sender 2 and no UDP sender; forging
for CIDs (100, 200) installs the mirrored cross-wired entries. -/
theorem post_connect_mirrored_entries_witness :
    lookup_vconn (forge_callback ⟨some ⟨1⟩, ⟨some ⟨10⟩, []⟩⟩
        ⟨some ⟨2⟩, ⟨none, []⟩⟩ 100 200).1.state_container 200
      = some ⟨.LocalGroupPeer 100 200, none, ⟨2⟩⟩
  ∧ lookup_vconn (forge_callback ⟨some ⟨1⟩, ⟨some ⟨10⟩, []⟩⟩
        ⟨some ⟨2⟩, ⟨none, []⟩⟩ 100 200).2.state_container 100
      = some ⟨.LocalGroupPeer 200 100, some ⟨10⟩, ⟨1⟩⟩ := by
  exact ⟨(post_connect_mirrored_entries ⟨some ⟨1⟩, ⟨some ⟨10⟩, []⟩⟩
      ⟨some ⟨2⟩, ⟨none, []⟩⟩ 100 200 ⟨1⟩ ⟨2⟩ rfl rfl).1,
    (post_connect_mirrored_entries ⟨some ⟨1⟩, ⟨some ⟨10⟩, []⟩⟩
      ⟨some ⟨2⟩, ⟨none, []⟩⟩ 100 200 ⟨1⟩ ⟨2⟩ rfl rfl).2.1⟩

/-- Claim C8: the PostConnect callback inserts virtual-connection entries
if and only if both sessions' `to_primary_stream` TCP senders are present;
when either is absent the callback is a silent no-op — both sessions (and
hence both state containers) are returned unchanged, and the callback has
no error channel at all. -/
theorem post_connect_noop_iff_missing_sender (this_sess peer_sess : HdpSession)
    (implicated_cid target_cid : Nat) :
    (forge_callback this_sess peer_sess implicated_cid target_cid
        = (this_sess, peer_sess)
      ↔ (this_sess.to_primary_stream = none ∨ peer_sess.to_primary_stream = none))
  ∧ (this_sess.to_primary_stream.isSome → peer_sess.to_primary_stream.isSome →
      (lookup_vconn (forge_callback this_sess peer_sess implicated_cid
          target_cid).1.state_container target_cid).isSome
    ∧ (lookup_vconn (forge_callback this_sess peer_sess implicated_cid
          target_cid).2.state_container implicated_cid).isSome) := by
  rcases h1 : this_sess.to_primary_stream with _ | this_tcp
  · constructor
    · simp [forge_callback, h1]
    · intro hs
      simp [h1] at hs
  · rcases h2 : peer_sess.to_primary_stream with _ | peer_tcp
    · constructor
      · simp [forge_callback, h1, h2]
      · intro _ hs
        simp [h2] at hs
    · constructor
      · constructor
        · intro heq
          exfalso
          have hlen := congrArg
            (fun q => q.1.state_container.vconns.length) heq
          simp [forge_callback, h1, h2,
            insert_new_virtual_connection_as_server] at hlen
        · intro hor
          rcases hor with hbad | hbad
          · cases hbad
          · cases hbad
      · intro _ _
        constructor
        · simp [forge_callback, h1, h2, lookup_vconn,
            insert_new_virtual_connection_as_server]
        · simp [forge_callback, h1, h2, lookup_vconn,
            insert_new_virtual_connection_as_server]

/-- Witness for claim C8: a concrete no-op run — the peer session has no
TCP sender, so both sessions come back unchanged — and a concrete forging
run where both entries exist. -/
theorem post_connect_noop_iff_missing_sender_witness :
    forge_callback ⟨some ⟨1⟩, ⟨some ⟨10⟩, []⟩⟩ ⟨none, ⟨none, []⟩⟩ 100 200
      = (⟨some ⟨1⟩, ⟨some ⟨10⟩, []⟩⟩, ⟨none, ⟨none, []⟩⟩)
  ∧ (lookup_vconn (forge_callback ⟨some ⟨1⟩, ⟨some ⟨10⟩, []⟩⟩
        ⟨some ⟨2⟩, ⟨none, []⟩⟩ 100 200).1.state_container 200).isSome := by
  constructor
  · exact (post_connect_noop_iff_missing_sender ⟨some ⟨1⟩, ⟨some ⟨10⟩, []⟩⟩
      ⟨none, ⟨none, []⟩⟩ 100 200).1.mpr (Or.inr rfl)
  · exact ((post_connect_noop_iff_missing_sender ⟨some ⟨1⟩, ⟨some ⟨10⟩, []⟩⟩
      ⟨some ⟨2⟩, ⟨none, []⟩⟩ 100 200).2 rfl rfl).1

end PostConnect

namespace KernelExec

/-- Claim C4 counterexample: the claim says a consumer error is returned
to the executor's caller, but `let _ = reader.try_for_each_concurrent(...)`
(kernel_executor.rs:94, under `allow(unused_must_use)`) discards the loop's
result: with one dispatched message whose consumer fails with
`Generic("kernel failure")` and a succeeding `on_stop`, the executor logs
the error and requests engine shutdown but returns `Ok`, not that error. -/
theorem kernel_consumer_error_swallowed_cex :
    multithreaded_kernel_inner_loop .ok true
        (fun _ => .err (.Generic "kernel failure")) .ok .ok [.Message 0]
      = ([.kernelOnStart, .logKernelError (.Generic "kernel failure"),
          .remoteShutdown, .awaitShutdownAlert300, .kernelOnStop], .ok)
  ∧ KResult.ok ≠ KResult.err (.Generic "kernel failure") := by
  exact ⟨rfl, by decide⟩

/-- Claim C4, amended: when the consumer errors on a dispatched message,
the executor logs the error and requests engine shutdown via the remote,
and the dispatch loop stops (no later message is dispatched); the error
itself is discarded, and the executor goes on to wait for the shutdown
alert and returns `kernel.on_stop()`'s result instead. -/
theorem kernel_consumer_error_logs_and_shuts_down (m : Nat)
    (rest : List HdpServerResult) (consumer : Nat → KResult)
    (onStop : KResult) (e : NetworkError) (h : consumer m = .err e) :
    multithreaded_kernel_inner_loop .ok true consumer .ok onStop
        (.Message m :: rest)
      = ([.kernelOnStart, .logKernelError e, .remoteShutdown,
          .awaitShutdownAlert300, .kernelOnStop], onStop) := by
  simp [multithreaded_kernel_inner_loop, dispatchLoop, processMessage, h]

/-- Witness for the amended C4 theorem at a concrete run: the consumer
always fails, a `Shutdown` message is still queued behind the failing one
and is never dispatched, and the on_stop result (an `InternalError`-free
`Ok`) is what comes back. -/
theorem kernel_consumer_error_logs_and_shuts_down_witness :
    multithreaded_kernel_inner_loop .ok true
        (fun _ => .err (.Generic "kernel failure")) .ok .ok
        [.Message 7, .Shutdown]
      = ([.kernelOnStart, .logKernelError (.Generic "kernel failure"),
          .remoteShutdown, .awaitShutdownAlert300, .kernelOnStop], .ok) := by
  exact kernel_consumer_error_logs_and_shuts_down 7 [.Shutdown]
    (fun _ => .err (.Generic "kernel failure")) .ok (.Generic "kernel failure") rfl

end KernelExec

namespace DualStack

theorem signalDoneCount_none (n : Nat) : signalDoneCount none n = 0 := by
  induction n with
  | zero => rfl
  | succ n ih => simp [signalDoneCount, signalDone, ih]

theorem signalDoneCount_some (n : Nat) :
    signalDoneCount (some ()) (n + 1) = 1 := by
  simp [signalDoneCount, signalDone, signalDoneCount_none]

/-- Claim C2: in the futures-resolver loop, a side whose hole-punch
succeeded (an `Ok` engine result), that has received no `MutexSet`
(`loser_value_set` empty), whose enqueued socket was not stolen, and that
acquires the distributed mutex while its slot holds no value, becomes the
winner: its action trace is exactly — set the mutex value, cleanse the
winning socket, submit it as the final candidate, publish
`MutexSet(peer_unique_id, local_id)` on the control channel, await
`WinnerCanEnd`, and only then emit the signal-done one-shot; the mutex
slot afterwards holds a value and the path finishes.  Moreover the
signal-done one-shot is emitted exactly once across the completion paths:
after the winner path, a subsequent loser-path completion emits nothing
more (total emissions 1), and any positive number of `signal_done` calls
on a fresh slot emits exactly once. -/
theorem dual_stack_winner_path (st : ResolverState)
    (sock : HolePunchedUdpSocket) (lid : HolePunchID)
    (h1 : st.loserValueSet = none) (h2 : st.mutexValue = none)
    (h3 : st.doneSlot = some ()) :
    (futuresResolverStep st (.ok sock) lid false).acts
      = [.setMutexValue, .cleanse sock, .submitFinalCandidate sock,
         .sendControl (.MutexSet sock.peerUniqueId lid),
         .awaitWinnerCanEnd, .emitSignalDone]
  ∧ (futuresResolverStep st (.ok sock) lid false).state.mutexValue = some ()
  ∧ (futuresResolverStep st (.ok sock) lid false).outcome = .finished
  ∧ (∀ lsel rsel rb,
      emitCount (futuresResolverStep st (.ok sock) lid false).acts
        + emitCount (readerMutexSetStep
            (futuresResolverStep st (.ok sock) lid false).state lsel rsel rb).acts
        = 1)
  ∧ (∀ n, signalDoneCount (some ()) (n + 1) = 1) := by
  refine ⟨?_, ?_, ?_, ?_, signalDoneCount_some⟩
  · simp [futuresResolverStep, h1, h2, h3, signalDone]
  · simp [futuresResolverStep, h1, h2, h3, signalDone]
  · simp [futuresResolverStep, h1, h2, h3, signalDone]
  · intro lsel rsel rb
    simp [futuresResolverStep, h1, h2, h3, signalDone, readerMutexSetStep,
      emitCount, List.count_cons, List.count_append]

/-- Witness for claim C2 at a concrete state: fresh coordinator state
(no loser value, empty mutex slot, done one-shot present), socket with
peer id 7, local hole-punch id 3. -/
theorem dual_stack_winner_path_witness :
    (futuresResolverStep ⟨none, [], some (), none, 0⟩ (.ok ⟨⟨7⟩, 1⟩) ⟨3⟩
        false).acts
      = [.setMutexValue, .cleanse ⟨⟨7⟩, 1⟩, .submitFinalCandidate ⟨⟨7⟩, 1⟩,
         .sendControl (.MutexSet ⟨7⟩ ⟨3⟩), .awaitWinnerCanEnd, .emitSignalDone]
  ∧ emitCount (futuresResolverStep ⟨none, [], some (), none, 0⟩
        (.ok ⟨⟨7⟩, 1⟩) ⟨3⟩ false).acts
      + emitCount (readerMutexSetStep (futuresResolverStep
          ⟨none, [], some (), none, 0⟩ (.ok ⟨⟨7⟩, 1⟩) ⟨3⟩ false).state
          ⟨3⟩ ⟨7⟩ ⟨⟨7⟩, 1⟩).acts = 1 := by
  exact ⟨(dual_stack_winner_path ⟨none, [], some (), none, 0⟩ ⟨⟨7⟩, 1⟩ ⟨3⟩
      rfl rfl rfl).1,
    (dual_stack_winner_path ⟨none, [], some (), none, 0⟩ ⟨⟨7⟩, 1⟩ ⟨3⟩
      rfl rfl rfl).2.2.2.1 ⟨3⟩ ⟨7⟩ ⟨⟨7⟩, 1⟩⟩

end DualStack
